import Mathlib

/-!
# Verification of the saassy task-orchestration core

Shallow embedding of the task orchestration subsystem of the saassy
repository: the worker-manager service (`services/worker-manager/src/routes.ts`,
`processor.ts`, `docker.ts`), the shared plan/limit configuration and helpers
(`packages/shared`), and the web admission route
(`apps/web/src/app/api/tasks/route.ts`).  Where the repository contains both a
vulnerable and a hardened revision of the same route file, the hardened
revision is embedded (it is the current one; the spec's design notes name the
hardened variant as the authoritative call path).

External platform primitives are modelled as follows:
* `JSON.parse` is modelled by `Saassy.jsonParse`, a recursive-descent parser
  for the JSON fragment the system exchanges (null, booleans, integer
  numbers, strings with the common escapes, arrays, objects); it succeeds
  exactly on a single JSON document surrounded by whitespace, as
  ECMAScript `JSON.parse` does on that fragment.
* The Docker runtime is modelled by an environment value (`SandboxEnv`)
  describing how the container behaves: the wall-clock milliseconds spent on
  image pull / container creation / start, and then either a runtime error
  thrown while pulling or creating (which in the source happens outside the
  `try` block of `runContainer`), a runtime error thrown after creation
  (inside the `try` block), or a normal run with an exit code, collected log
  text and a run duration.  `Promise.race` of the wait and the timeout timer
  resolves to whichever fires first.
* The PocketBase record store is modelled as in-memory lists of rows;
  `getList(1, 1, filter)` returns the first row matching the filter, `update`
  patches the row with the given id, `create` appends a row with a fresh id.
  Collection filters are modelled structurally (the source escapes the
  interpolated values, so a filter denotes exactly the equality tests it
  spells).  ISO timestamp strings are abstracted to presence markers.
-/

set_option linter.unusedVariables false

namespace Saassy

/-! ## JSON values and a model of `JSON.parse` -/

/-- A JSON document (integer-valued numbers; the fragment the system uses). -/
inductive Json where
  | null : Json
  | bool (b : Bool) : Json
  | num (n : Int) : Json
  | str (s : String) : Json
  | arr (elems : List Json) : Json
  | obj (fields : List (String × Json)) : Json

/-- JavaScript truthiness of a JSON value (used by the `if (!x)` presence
checks on request bodies). -/
def Json.truthy : Json → Bool
  | .null => false
  | .bool b => b
  | .num n => n != 0
  | .str s => s != ""
  | .arr _ => true
  | .obj _ => true

/-- Skip JSON whitespace. -/
def skipWs : List Char → List Char
  | c :: cs => if c = ' ' || c = '\n' || c = '\t' || c = '\r' then skipWs cs else c :: cs
  | [] => []

/-- Digit run at the front of the input, as a natural number. -/
def takeDigits : List Char → Option (Nat × List Char) := fun cs =>
  let ds := cs.takeWhile Char.isDigit
  let rest := cs.dropWhile Char.isDigit
  if ds.isEmpty then none
  else some (ds.foldl (fun n c => n * 10 + (c.toNat - 48)) 0, rest)

/-- String-literal body: characters until the closing quote, with the common
escapes. -/
def strBody : Nat → List Char → List Char → Option (String × List Char)
  | 0, _, _ => none
  | Nat.succ f, acc, cs =>
    match cs with
    | '"' :: rest => some (String.mk acc.reverse, rest)
    | '\\' :: e :: rest =>
      match e with
      | '"' => strBody f ('"' :: acc) rest
      | '\\' => strBody f ('\\' :: acc) rest
      | '/' => strBody f ('/' :: acc) rest
      | 'n' => strBody f ('\n' :: acc) rest
      | 't' => strBody f ('\t' :: acc) rest
      | 'r' => strBody f ('\r' :: acc) rest
      | _ => none
    | c :: rest => strBody f (c :: acc) rest
    | [] => none

mutual

/-- Parse one JSON value (fuel-bounded recursive descent). -/
def parseVal : Nat → List Char → Option (Json × List Char)
  | 0, _ => none
  | Nat.succ f, cs0 =>
    let cs := skipWs cs0
    match cs with
    | [] => none
    | '"' :: rest =>
      match strBody (rest.length + 1) [] rest with
      | some (s, rest1) => some (.str s, rest1)
      | none => none
    | '-' :: rest =>
      match takeDigits rest with
      | some (n, rest1) => some (.num (-(n : Int)), rest1)
      | none => none
    | '[' :: rest =>
      let rest1 := skipWs rest
      match rest1 with
      | ']' :: rest2 => some (.arr [], rest2)
      | _ => parseArrItems f rest1 []
    | '{' :: rest =>
      let rest1 := skipWs rest
      match rest1 with
      | '}' :: rest2 => some (.obj [], rest2)
      | _ => parseObjItems f rest1 []
    | c :: _ =>
      if c.isDigit then
        match takeDigits cs with
        | some (n, rest1) => some (.num (n : Int), rest1)
        | none => none
      else if ['n', 'u', 'l', 'l'].isPrefixOf cs then some (.null, cs.drop 4)
      else if ['t', 'r', 'u', 'e'].isPrefixOf cs then some (.bool true, cs.drop 4)
      else if ['f', 'a', 'l', 's', 'e'].isPrefixOf cs then some (.bool false, cs.drop 5)
      else none

/-- Parse the items of an array, after at least one item is known to follow. -/
def parseArrItems : Nat → List Char → List Json → Option (Json × List Char)
  | 0, _, _ => none
  | Nat.succ f, cs, acc =>
    match parseVal f cs with
    | none => none
    | some (v, rest) =>
      match skipWs rest with
      | ',' :: rest1 => parseArrItems f rest1 (v :: acc)
      | ']' :: rest1 => some (.arr (v :: acc).reverse, rest1)
      | _ => none

/-- Parse the members of an object, after at least one member is known to
follow. -/
def parseObjItems : Nat → List Char → List (String × Json) → Option (Json × List Char)
  | 0, _, _ => none
  | Nat.succ f, cs, acc =>
    match skipWs cs with
    | '"' :: rest =>
      match strBody (rest.length + 1) [] rest with
      | none => none
      | some (k, rest1) =>
        match skipWs rest1 with
        | ':' :: rest2 =>
          match parseVal f rest2 with
          | none => none
          | some (v, rest3) =>
            match skipWs rest3 with
            | ',' :: rest4 => parseObjItems f rest4 ((k, v) :: acc)
            | '}' :: rest4 => some (.obj ((k, v) :: acc).reverse, rest4)
            | _ => none
        | _ => none
    | _ => none

end

/-- Model of `JSON.parse(s)`: succeeds iff `s` is one JSON document surrounded
by whitespace, returning the document. -/
def jsonParse (s : String) : Option Json :=
  match parseVal (s.length + 1) s.data with
  | some (j, rest) => if skipWs rest = [] then some j else none
  | none => none

/-- `tryParseJson` from `services/worker-manager/src/processor.ts`: parse the
collected output, or preserve the raw text under a fallback field. -/
def tryParseJson (s : String) : Json :=
  match jsonParse s with
  | some j => j
  | none => Json.obj [("raw", Json.str s)]

/-! ## Shared types and plan configuration (`packages/shared`) -/

/-- `PlanType` from `packages/shared/src/types.ts`. -/
inductive PlanType where
  | free
  | starter
  | pro
  | enterprise
  deriving DecidableEq, Repr

/-- `PlanLimits` from `packages/shared/src/types.ts`.  `tasksPerMonth` is an
`Int` because the source uses `-1` for unlimited. -/
structure PlanLimits where
  tasksPerMonth : Int
  maxConcurrent : Nat
  maxDurationSeconds : Nat
  deriving DecidableEq, Repr

/-- `PLAN_LIMITS` from `packages/shared/src/constants.ts`. -/
def PLAN_LIMITS : PlanType → PlanLimits
  | .free => { tasksPerMonth := 10, maxConcurrent := 1, maxDurationSeconds := 60 }
  | .starter => { tasksPerMonth := 100, maxConcurrent := 3, maxDurationSeconds := 300 }
  | .pro => { tasksPerMonth := 1000, maxConcurrent := 10, maxDurationSeconds := 3600 }
  | .enterprise => { tasksPerMonth := -1, maxConcurrent := 50, maxDurationSeconds := 86400 }

/-- `TaskStatus` from `packages/shared/src/types.ts`. -/
inductive TaskStatus where
  | pending
  | queued
  | running
  | completed
  | failed
  | canceled
  deriving DecidableEq, Repr

/-- `ResourceUsage` from `packages/shared/src/types.ts`; the numeric fields
are rationals because the source computes them as millisecond quotients. -/
structure ResourceUsage where
  cpuSeconds : Rat
  memoryMbSeconds : Rat
  durationSeconds : Rat
  deriving DecidableEq, Repr

/-! ## Identifier helpers -/

/-- A character of the PocketBase id alphabet `[a-z0-9]`. -/
def isPbIdChar (c : Char) : Bool :=
  ('a' ≤ c && c ≤ 'z') || ('0' ≤ c && c ≤ '9')

/-- `isValidPocketBaseId` (identical in `processor.ts`, `routes.ts` and the
web webhook route): the id matches `^[a-z0-9]\x7b15\x7d$`. -/
def isValidPocketBaseId (s : String) : Bool :=
  s.length = 15 && s.data.all isPbIdChar

/-- `generateTaskId` from `packages/shared/src/utils.ts`, as a function of the
current epoch milliseconds and the random suffix. -/
def generateTaskId (nowMs : Nat) (rand : String) : String :=
  "task_" ++ toString nowMs ++ "_" ++ rand

/-! ## Admission policy helper (`packages/shared/src/utils.ts`) -/

/-- Result type of `canCreateTask`. -/
structure CanCreateResult where
  allowed : Bool
  reason : Option String
  deriving DecidableEq, Repr

/-- `canCreateTask` from `packages/shared/src/utils.ts`: monthly-quota check
(free tier is a hard cap, paid tiers fall through to overage), then the
concurrency check. -/
def canCreateTask (plan : PlanType) (currentMonthTasks : Nat)
    (currentConcurrent : Nat) : CanCreateResult :=
  let limits := PLAN_LIMITS plan
  let concurrentCheck : CanCreateResult :=
    if currentConcurrent ≥ limits.maxConcurrent then
      { allowed := false
        reason := some ("Maximum concurrent tasks (" ++ toString limits.maxConcurrent
          ++ ") reached.") }
    else { allowed := true, reason := none }
  if limits.tasksPerMonth ≠ -1 && (currentMonthTasks : Int) ≥ limits.tasksPerMonth then
    if plan = .free then
      { allowed := false, reason := some "Monthly task limit reached. Upgrade to continue." }
    else concurrentCheck
  else concurrentCheck

/-! ## Docker manager (`services/worker-manager/src/docker.ts`) -/

/-- `parseMemoryLimit` from `docker.ts`: `^(\d+)(m|g|k)?$` case-insensitive,
defaulting to 512 MB when the string does not match, and to the `m` unit when
no unit is given. -/
def parseMemoryLimit (limit : String) : Nat :=
  let ds := limit.data.takeWhile Char.isDigit
  let rest := limit.data.dropWhile Char.isDigit
  let value := ds.foldl (fun n c => n * 10 + (c.toNat - 48)) 0
  if ds.isEmpty then 512 * 1024 * 1024
  else
    match rest with
    | [] => value * 1024 * 1024
    | [u] =>
      if u = 'k' || u = 'K' then value * 1024
      else if u = 'm' || u = 'M' then value * 1024 * 1024
      else if u = 'g' || u = 'G' then value * 1024 * 1024 * 1024
      else 512 * 1024 * 1024
    | _ => 512 * 1024 * 1024

/-- `ContainerConfig` from `docker.ts` (the fields `runContainer` reads). -/
structure ContainerConfig where
  image : String
  taskId : String
  input : Json
  cpuLimit : Rat
  memoryLimit : String
  timeoutSeconds : Nat

/-- `ContainerResult` from `docker.ts`. -/
structure ContainerResult where
  containerId : String
  exitCode : Int
  output : String
  error : Option String
  resourceUsage : ResourceUsage

/-- How the Docker runtime behaves for one `runContainer` call.

* `setupFail`: `pullImageIfNeeded` or `createContainer` throws.  In the
  source these two awaits sit *outside* the `try` block, so the error
  propagates out of `runContainer`.
* `startFail`: `container.start()`, `container.wait()` or `container.logs()`
  throws after `failMs` further milliseconds; this is inside the `try` block
  and is caught.
* `runs`: the container runs for `runMs` milliseconds, exits with `exitCode`
  and its collected combined stdout+stderr log text is `logsText`. -/
inductive SandboxBehavior where
  | setupFail (msg : String)
  | startFail (msg : String) (failMs : Nat)
  | runs (exitCode : Nat) (logsText : String) (runMs : Nat)

/-- The environment of one `runContainer` call: the container id Docker
assigns, the wall-clock milliseconds spent before the completion/timeout race
begins (image pull, container creation and start), and the behaviour. -/
structure SandboxEnv where
  containerId : String
  setupMs : Nat
  behavior : SandboxBehavior

/-- The timeout sentinel error message from `docker.ts`. -/
def timeoutMessage (timeoutSeconds : Nat) : String :=
  "Task timed out after " ++ toString timeoutSeconds ++ " seconds"

/-- The non-zero exit error message from `docker.ts`. -/
def exitCodeMessage (code : Nat) : String :=
  "Exit code: " ++ toString code

/-- `DockerManager.runContainer` from `docker.ts`.

`startTime` is taken before the image pull, so every duration below includes
`env.setupMs`.  The `Promise.race` of `container.wait()` and the timeout
timer is won by the timer exactly when the timer fires strictly first, i.e.
when `timeoutSeconds * 1000 < runMs`.  A `setupFail` propagates as a thrown
error (`Except.error`); a `startFail` is caught and reported as exit code
`-1` with empty output and zero memory usage, as in the source's `catch`
block. -/
def runContainer (cfg : ContainerConfig) (env : SandboxEnv) :
    Except String ContainerResult :=
  match env.behavior with
  | .setupFail msg => .error msg
  | .startFail msg failMs =>
    let durationSeconds : Rat := ((env.setupMs + failMs : Nat) : Rat) / 1000
    .ok
      { containerId := env.containerId
        exitCode := -1
        output := ""
        error := some msg
        resourceUsage :=
          { cpuSeconds := durationSeconds * cfg.cpuLimit
            memoryMbSeconds := 0
            durationSeconds := durationSeconds } }
  | .runs code logsText runMs =>
    let timeoutMs := cfg.timeoutSeconds * 1000
    let raceMs := min runMs timeoutMs
    let durationSeconds : Rat := ((env.setupMs + raceMs : Nat) : Rat) / 1000
    let usage : ResourceUsage :=
      { cpuSeconds := durationSeconds * cfg.cpuLimit
        memoryMbSeconds :=
          durationSeconds * (((parseMemoryLimit cfg.memoryLimit : Nat) : Rat) / 1024 / 1024)
        durationSeconds := durationSeconds }
    if timeoutMs < runMs then
      .ok
        { containerId := env.containerId
          exitCode := -1
          output := logsText
          error := some (timeoutMessage cfg.timeoutSeconds)
          resourceUsage := usage }
    else
      .ok
        { containerId := env.containerId
          exitCode := (code : Int)
          output := logsText
          error := if (code : Int) ≠ 0 then some (exitCodeMessage code) else none
          resourceUsage := usage }

/-- A container known to the Docker daemon, tagged with its
`saassy.task.id` label (as listed by `listContainers`). -/
structure ContainerInfo where
  id : String
  taskLabel : String
  deriving DecidableEq, Repr

/-- The Docker daemon's container list. -/
structure DockerState where
  containers : List ContainerInfo
  deriving DecidableEq, Repr

/-- `DockerManager.stopContainer` from `docker.ts`: list the containers
labelled with the task id and stop and remove each; a task with no live
container is a no-op. -/
def stopContainer (d : DockerState) (taskId : String) : DockerState :=
  { containers := d.containers.filter (fun c => c.taskLabel ≠ taskId) }

/-! ## Usage records and the accounting sink
(`services/worker-manager/src/processor.ts`, `recordUsage`) -/

/-- A row of the `usage_records` collection.  `id` is the PocketBase record
id (abstracted to a number); the schema declares all the numeric fields, so
they are total here (the source's `|| 0` guards only the missing-field
case). -/
structure UsageRecord where
  id : Nat
  user : String
  task : String
  period : String
  cpuSeconds : Rat
  memoryMbSeconds : Rat
  taskCount : Nat
  costCents : Rat
  deriving DecidableEq, Repr

/-- `getList(1, 1, \x7b filter: user = .. && period = .. \x7d)`: the first row
matching the filter.  The interpolated values are escaped in the source, so
the filter denotes exactly these equality tests. -/
def findUsage (s : List UsageRecord) (user period : String) : Option UsageRecord :=
  (s.filter (fun r => r.user = user && r.period = period)).head?

/-- A fresh PocketBase record id: larger than every id in the store. -/
def freshUsageId (s : List UsageRecord) : Nat :=
  s.foldr (fun r m => max (r.id + 1) m) 0

/-- `pb.collection(..).update(id, patch)`: patch the row with the given id. -/
def updateUsageById (s : List UsageRecord) (id : Nat)
    (patch : UsageRecord → UsageRecord) : List UsageRecord :=
  s.map (fun r => if r.id = id then patch r else r)

/-- The row `recordUsage` creates when no usage record exists for the
period: exactly the task's usage, task count 1, cost 0 (cost is the billing
service's). -/
def newUsageRecord (s : List UsageRecord) (userId taskId period : String)
    (usage : ResourceUsage) : UsageRecord :=
  { id := freshUsageId s
    user := userId
    task := taskId
    period := period
    cpuSeconds := usage.cpuSeconds
    memoryMbSeconds := usage.memoryMbSeconds
    taskCount := 1
    costCents := 0 }

/-- `recordUsage` from `processor.ts`: skip silently when either id fails the
PocketBase id format check; otherwise upsert the usage record for
(user, period) — add the task's usage and one task to the first existing row,
or create a row carrying exactly the task's usage with task count 1.  The
patch values are computed from the fetched row `r`, as in the source. -/
def recordUsage (s : List UsageRecord) (userId taskId : String)
    (usage : ResourceUsage) (period : String) : List UsageRecord :=
  if !(isValidPocketBaseId userId && isValidPocketBaseId taskId) then s
  else
    match findUsage s userId period with
    | some r =>
      updateUsageById s r.id (fun rec =>
        { rec with
          cpuSeconds := r.cpuSeconds + usage.cpuSeconds
          memoryMbSeconds := r.memoryMbSeconds + usage.memoryMbSeconds
          taskCount := r.taskCount + 1 })
    | none => s ++ [newUsageRecord s userId taskId period usage]

/-! ## Task rows and the task processor
(`services/worker-manager/src/processor.ts`, `processTask`) -/

/-- A row of the `tasks` collection.  ISO timestamp strings are abstracted to
presence markers. -/
structure TaskRow where
  id : String
  user : String
  type : String
  status : TaskStatus
  input : Json
  output : Option Json
  error : Option String
  workerId : Option String
  startedAt : Option Unit
  completedAt : Option Unit
  resourceUsage : Option ResourceUsage

/-- `pb.collection(tasks).update(id, patch)`: patch the row with the given
id. -/
def updateTask (rows : List TaskRow) (id : String)
    (patch : TaskRow → TaskRow) : List TaskRow :=
  rows.map (fun r => if r.id = id then patch r else r)

/-- The task row an observer reads back for an id (first match). -/
def getTask (rows : List TaskRow) (id : String) : Option TaskRow :=
  (rows.filter (fun r => r.id = id)).head?

/-- `limits` field of `TaskJobData` (`services/worker-manager/src/queue.ts`). -/
structure JobLimits where
  cpuLimit : Rat
  memoryLimit : String
  timeoutSeconds : Nat
  deriving DecidableEq, Repr

/-- `TaskJobData` from `services/worker-manager/src/queue.ts`. -/
structure TaskJobData where
  taskId : String
  userId : String
  type : String
  input : Json
  workerImage : String
  limits : JobLimits

/-- The record store touched by one processed job: the `tasks` collection and
the `usage_records` collection. -/
structure SysState where
  tasks : List TaskRow
  usage : List UsageRecord

/-- The container configuration `processTask` passes to
`docker.runContainer`: the job's image and input under the job's limits. -/
def jobConfig (job : TaskJobData) : ContainerConfig :=
  { image := job.workerImage
    taskId := job.taskId
    input := job.input
    cpuLimit := job.limits.cpuLimit
    memoryLimit := job.limits.memoryLimit
    timeoutSeconds := job.limits.timeoutSeconds }

/-- `processTask` from `processor.ts`: mark the task `running` (with its
started-at timestamp) before the sandbox starts, run the container, then —
when `runContainer` returns rather than throws — write the terminal status
(`completed` exactly on exit code 0, else `failed`), the parsed output, the
error field, the container id, the completion timestamp and the usage
snapshot, and forward the usage to `recordUsage`.  When `runContainer`
throws (image pull / container creation failure), the error propagates: no
further store write happens and the job fails. -/
def processTask (st : SysState) (job : TaskJobData) (env : SandboxEnv)
    (period : String) : SysState × Except String ContainerResult :=
  let tasks1 := updateTask st.tasks job.taskId (fun r =>
    { r with status := .running, startedAt := some () })
  match runContainer (jobConfig job) env with
  | .error e => ({ st with tasks := tasks1 }, .error e)
  | .ok result =>
    let status : TaskStatus := if result.exitCode = 0 then .completed else .failed
    let tasks2 := updateTask tasks1 job.taskId (fun r =>
      { r with
        status := status
        output := some (tryParseJson result.output)
        error := result.error
        workerId := some result.containerId
        completedAt := some ()
        resourceUsage := some result.resourceUsage })
    ({ tasks := tasks2
       usage := recordUsage st.usage job.userId job.taskId result.resourceUsage period },
     .ok result)

/-! ## Internal dispatch routes
(`services/worker-manager/src/routes.ts`, hardened revision) -/

/-- A row of the `subscriptions` collection.  `plan` and `status` are the raw
stored strings; `created` is the creation timestamp used by the
`sort: -created` lookup. -/
structure SubscriptionRow where
  user : String
  plan : String
  status : String
  created : Nat
  deriving DecidableEq, Repr

/-- `VALID_PLANS` from `routes.ts`, as a parse of the stored plan string. -/
def parsePlan : String → Option PlanType
  | "free" => some .free
  | "starter" => some .starter
  | "pro" => some .pro
  | "enterprise" => some .enterprise
  | _ => none

/-- The subscription lookup in the hardened `POST /internal/tasks/start`:
`getList(1, 1)` filtered on `user = userId && status = "active"`, sorted by
`created` descending — the newest active subscription, if any. -/
def latestActiveSub (subs : List SubscriptionRow) (userId : String) :
    Option SubscriptionRow :=
  (subs.filter (fun s => s.user = userId && s.status = "active")).foldl
    (fun best s =>
      match best with
      | none => some s
      | some t => if s.created > t.created then some s else some t)
    none

/-- The server-side plan resolution of the hardened route: the newest active
subscription's plan when it parses as a valid plan name, `free` otherwise
(no subscription, non-active subscription, or an unrecognised plan string). -/
def resolvePlan (subs : List SubscriptionRow) (userId : String) : PlanType :=
  match latestActiveSub subs userId with
  | some s =>
    match parsePlan s.plan with
    | some p => p
    | none => .free
  | none => .free

/-- `getWorkerImage` from `routes.ts`. -/
def getWorkerImage : String → Option String
  | "example-worker" => some "saassy/example-worker:latest"
  | "test-worker" => some "saassy/test-worker:latest"
  | _ => none

/-- `VALID_TASK_TYPES` from `routes.ts`. -/
def VALID_TASK_TYPES : List String := ["example-worker", "test-worker"]

/-- The JSON body of `POST /internal/tasks/start`.  `plan` is whatever plan
field a client may put in the body; the hardened handler never reads it. -/
structure StartRequest where
  taskId : String
  userId : String
  type : String
  input : Option Json
  plan : Option String

/-- Response of `POST /internal/tasks/start`. -/
inductive StartResponse where
  | badRequest (msg : String)
  | ok (jobId : String)
  deriving DecidableEq, Repr

/-- `queue.add(.., \x7b jobId: taskId \x7d)`: BullMQ deduplicates on the job
id — adding a job whose id is already present leaves the queue unchanged. -/
def enqueue (q : List TaskJobData) (j : TaskJobData) : List TaskJobData :=
  if q.any (fun k => k.taskId = j.taskId) then q else q ++ [j]

/-- JavaScript falsiness of the `input` body field (`!input`). -/
def inputMissing : Option Json → Bool
  | none => true
  | some j => !j.truthy

/-- The hardened `POST /internal/tasks/start` handler from `routes.ts`:
presence checks, id format validation, task type whitelist, worker image
lookup, server-side plan resolution from the subscription store, then
enqueue with `cpuLimit 1`, `memoryLimit "512m"` and the resolved plan's
`maxDurationSeconds` as the timeout. -/
def startTask (subs : List SubscriptionRow) (q : List TaskJobData)
    (req : StartRequest) : StartResponse × List TaskJobData :=
  if req.taskId = "" || req.userId = "" || req.type = "" || inputMissing req.input then
    (.badRequest "Missing required fields", q)
  else if !(isValidPocketBaseId req.taskId && isValidPocketBaseId req.userId) then
    (.badRequest "Invalid task or user ID format", q)
  else if !(VALID_TASK_TYPES.contains req.type) then
    (.badRequest ("Unknown task type: " ++ req.type), q)
  else
    match getWorkerImage req.type with
    | none => (.badRequest ("Unknown task type: " ++ req.type), q)
    | some img =>
      let plan := resolvePlan subs req.userId
      let limits := PLAN_LIMITS plan
      let job : TaskJobData :=
        { taskId := req.taskId
          userId := req.userId
          type := req.type
          input := req.input.getD Json.null
          workerImage := img
          limits :=
            { cpuLimit := 1
              memoryLimit := "512m"
              timeoutSeconds := limits.maxDurationSeconds } }
      (.ok req.taskId, enqueue q job)

/-- Response of `DELETE /internal/tasks/:id`. -/
inductive CancelResponse where
  | badRequest (msg : String)
  | ok (msg : String)
  deriving DecidableEq, Repr

/-- The hardened `DELETE /internal/tasks/:id` handler from `routes.ts`:
validate the id, remove the queued job if present, stop any container
labelled with the task id, and answer success.  The `tasks` collection is
returned unchanged because the handler performs no task-record write. -/
def cancelTask (q : List TaskJobData) (d : DockerState) (tasks : List TaskRow)
    (id : String) : CancelResponse × List TaskJobData × DockerState × List TaskRow :=
  if !(isValidPocketBaseId id) then
    (.badRequest "Invalid task ID format", q, d, tasks)
  else
    let q1 := q.filter (fun j => j.taskId ≠ id)
    let d1 := stopContainer d id
    (.ok "Task canceled", q1, d1, tasks)

/-! ## Web admission route (`apps/web/src/app/api/tasks/route.ts`,
hardened revision, `POST /api/tasks`) -/

/-- `ALLOWED_TASK_TYPES` from the web route. -/
def ALLOWED_TASK_TYPES : List String := ["example-worker", "test-worker"]

/-- The JSON body of `POST /api/tasks` (`CreateTaskRequest`). -/
structure CreateTaskBody where
  type : String
  input : Option Json

/-- Response of `POST /api/tasks`. -/
inductive WebResponse where
  | unauthorized
  | badRequest (msg : String)
  | created (taskId : String)
  deriving DecidableEq, Repr

/-- The hardened `POST /api/tasks` handler: token authentication, presence
checks, task type whitelist, plain-object check on the input, then — the
quota and concurrency checks being an unimplemented `TODO` in the source —
unconditional creation of a `pending` task owned by the authenticated user.
`authedUser` is the user id the token resolves to (`none` when the bearer
token is absent or invalid); `newId` is the id PocketBase assigns to the
created row. -/
def webCreateTask (authedUser : Option String) (body : CreateTaskBody)
    (tasks : List TaskRow) (newId : String) : WebResponse × List TaskRow :=
  match authedUser with
  | none => (.unauthorized, tasks)
  | some uid =>
    if body.type = "" || inputMissing body.input then
      (.badRequest "Missing required fields: type, input", tasks)
    else if !(ALLOWED_TASK_TYPES.contains body.type) then
      (.badRequest "Invalid task type", tasks)
    else
      match body.input with
      | some (Json.obj fields) =>
        (.created newId,
         tasks ++ [{ id := newId
                     user := uid
                     type := body.type
                     status := .pending
                     input := Json.obj fields
                     output := none
                     error := none
                     workerId := none
                     startedAt := none
                     completedAt := none
                     resourceUsage := none }])
      | _ => (.badRequest "Input must be a JSON object", tasks)

/-! ## Admission followed by processing -/

/-- Admit a request against the subscription store as of admission time,
then process the enqueued job (if one was enqueued) against a possibly
different subscription store `subsLater` — which the processor, like the
source's `processTask`, never reads: the job carries its limits. -/
def admitThenProcess (subsAdmission subsLater : List SubscriptionRow)
    (req : StartRequest) (st : SysState) (env : SandboxEnv) (period : String) :
    SysState × Option (Except String ContainerResult) :=
  let res := startTask subsAdmission [] req
  match (res.2.filter (fun j => j.taskId = req.taskId)).head? with
  | none => (st, none)
  | some job =>
    let out := processTask st job env period
    (out.1, some out.2)

/-! ## Lemmas about the usage store -/

/-- Number of usage records for one (owner, period) pair. -/
def countFor (s : List UsageRecord) (user period : String) : Nat :=
  (s.filter (fun r => r.user = user && r.period = period)).length

theorem recordUsage_of_invalid (s : List UsageRecord) (userId taskId : String)
    (usage : ResourceUsage) (period : String)
    (h : isValidPocketBaseId userId = false ∨ isValidPocketBaseId taskId = false) :
    recordUsage s userId taskId usage period = s := by
  unfold recordUsage
  rcases h with h | h <;> simp [h]

theorem generateTaskId_invalid (nowMs : Nat) (rand : String) :
    isValidPocketBaseId (generateTaskId nowMs rand) = false := by
  have hmem : '_' ∈ (generateTaskId nowMs rand).data := by
    unfold generateTaskId
    rw [String.data_append, String.data_append, String.data_append]
    exact List.mem_append.2 (Or.inl (List.mem_append.2 (Or.inl
      (List.mem_append.2 (Or.inl (by decide))))))
  rw [Bool.eq_false_iff]
  intro h
  unfold isValidPocketBaseId at h
  rw [Bool.and_eq_true] at h
  have hc := List.all_eq_true.mp h.2 '_' hmem
  exact absurd hc (by decide)

theorem findUsage_map_of_preserve (s : List UsageRecord) (u p : String)
    (g : UsageRecord → UsageRecord)
    (hg : ∀ x, (g x).user = x.user ∧ (g x).period = x.period) :
    findUsage (s.map g) u p = (findUsage s u p).map g := by
  unfold findUsage
  rw [List.filter_map, List.head?_map]
  have heq : ((fun r : UsageRecord => r.user = u && r.period = p) ∘ g) =
      (fun r : UsageRecord => r.user = u && r.period = p) := by
    funext x
    simp only [Function.comp_apply]
    rw [(hg x).1, (hg x).2]
  rw [heq]

theorem recordUsage_of_absent (s : List UsageRecord) (userId taskId : String)
    (usage : ResourceUsage) (period : String)
    (h1 : isValidPocketBaseId userId = true) (h2 : isValidPocketBaseId taskId = true)
    (hnone : findUsage s userId period = none) :
    recordUsage s userId taskId usage period =
      s ++ [newUsageRecord s userId taskId period usage] := by
  unfold recordUsage
  simp [h1, h2, hnone]

theorem findUsage_recordUsage_of_found (s : List UsageRecord) (userId taskId : String)
    (usage : ResourceUsage) (period : String) (r : UsageRecord)
    (h1 : isValidPocketBaseId userId = true) (h2 : isValidPocketBaseId taskId = true)
    (hr : findUsage s userId period = some r) :
    findUsage (recordUsage s userId taskId usage period) userId period =
      some { r with
             cpuSeconds := r.cpuSeconds + usage.cpuSeconds
             memoryMbSeconds := r.memoryMbSeconds + usage.memoryMbSeconds
             taskCount := r.taskCount + 1 } := by
  unfold recordUsage updateUsageById
  simp only [h1, h2, hr, Bool.and_self, Bool.not_true, Bool.false_eq_true, if_false]
  rw [findUsage_map_of_preserve]
  · rw [hr]
    simp
  · intro x
    by_cases hx : x.id = r.id <;> simp [hx]

theorem length_recordUsage_of_found (s : List UsageRecord) (userId taskId : String)
    (usage : ResourceUsage) (period : String) (r : UsageRecord)
    (h1 : isValidPocketBaseId userId = true) (h2 : isValidPocketBaseId taskId = true)
    (hr : findUsage s userId period = some r) :
    (recordUsage s userId taskId usage period).length = s.length := by
  unfold recordUsage updateUsageById
  simp [h1, h2, hr]

theorem countFor_recordUsage (s : List UsageRecord) (userId taskId : String)
    (usage : ResourceUsage) (period : String) (u2 p2 : String)
    (h : countFor s u2 p2 ≤ 1) :
    countFor (recordUsage s userId taskId usage period) u2 p2 ≤ 1 := by
  unfold recordUsage
  by_cases hv : (isValidPocketBaseId userId && isValidPocketBaseId taskId) = true
  · rw [hv]
    simp only [Bool.not_true, Bool.false_eq_true, if_false]
    cases hr : findUsage s userId period with
    | some r =>
      unfold updateUsageById countFor
      rw [List.filter_map, List.length_map]
      have : List.filter ((fun x => x.user = u2 && x.period = p2) ∘
          (fun x => if x.id = r.id then
            { x with
              cpuSeconds := r.cpuSeconds + usage.cpuSeconds
              memoryMbSeconds := r.memoryMbSeconds + usage.memoryMbSeconds
              taskCount := r.taskCount + 1 } else x)) s =
          List.filter (fun x => x.user = u2 && x.period = p2) s := by
        apply List.filter_congr
        intro x _
        by_cases hx : x.id = r.id <;> simp [hx]
      rw [this]
      exact h
    | none =>
      have h0 : List.filter (fun r => r.user = userId && r.period = period) s = [] := by
        unfold findUsage at hr
        rwa [List.head?_eq_none_iff] at hr
      unfold countFor
      rw [List.filter_append, List.length_append]
      by_cases hu : userId = u2
      · by_cases hp : period = p2
        · subst hu
          subst hp
          rw [h0]
          simp [newUsageRecord]
        · have hsing : List.filter (fun r => r.user = u2 && r.period = p2)
              [newUsageRecord s userId taskId period usage] = [] := by
            simp [newUsageRecord, hp]
          rw [hsing]
          simpa using h
      · have hsing : List.filter (fun r => r.user = u2 && r.period = p2)
            [newUsageRecord s userId taskId period usage] = [] := by
          simp [newUsageRecord, hu]
        rw [hsing]
        simpa using h
  · rw [Bool.not_eq_true] at hv
    rw [hv]
    simpa using h

/-! ## Claim C8 — usage accounting upsert -/

/-- C8, counterexample.  The claim quantifies over *every* invocation of the
accounting step, but an invocation whose owner id fails the PocketBase id
format check (here `"x"`) is skipped by `recordUsage`: although no usage
record exists for the (owner, period) pair, none is created — the store
stays empty instead of holding one record with task count 1. -/
theorem claim_C8_counterexample :
    recordUsage [] "x" "klmnopqrstu0123"
      { cpuSeconds := 1, memoryMbSeconds := 2, durationSeconds := 3 } "2024-01" = [] := by
  decide

/-- C8, amended: for every invocation of `recordUsage` whose owner and task
ids are in the 15-character lowercase-alphanumeric PocketBase format, if no
usage record exists for (owner, period) one is created holding exactly the
task's usage with task count 1; otherwise the first existing record's
cumulative cpu-seconds and memory-MB-seconds grow by exactly the task's
usage, its task count by exactly one, and no row is added.  Moreover every
invocation (valid ids or not) preserves at-most-one-record-per
(owner, period). -/
theorem claim_C8_usage_upsert :
    (∀ (s : List UsageRecord) (userId taskId : String) (usage : ResourceUsage)
       (period : String),
       isValidPocketBaseId userId = true → isValidPocketBaseId taskId = true →
       (findUsage s userId period = none →
         recordUsage s userId taskId usage period =
           s ++ [newUsageRecord s userId taskId period usage]) ∧
       (∀ r, findUsage s userId period = some r →
         findUsage (recordUsage s userId taskId usage period) userId period =
           some { r with
                  cpuSeconds := r.cpuSeconds + usage.cpuSeconds
                  memoryMbSeconds := r.memoryMbSeconds + usage.memoryMbSeconds
                  taskCount := r.taskCount + 1 } ∧
         (recordUsage s userId taskId usage period).length = s.length)) ∧
    (∀ (s : List UsageRecord) (userId taskId : String) (usage : ResourceUsage)
       (period u2 p2 : String),
       countFor s u2 p2 ≤ 1 →
       countFor (recordUsage s userId taskId usage period) u2 p2 ≤ 1) := by
  refine ⟨fun s userId taskId usage period h1 h2 => ⟨?_, fun r hr => ⟨?_, ?_⟩⟩,
    fun s userId taskId usage period u2 p2 h => countFor_recordUsage _ _ _ _ _ _ _ h⟩
  · exact fun hnone => recordUsage_of_absent s userId taskId usage period h1 h2 hnone
  · exact findUsage_recordUsage_of_found s userId taskId usage period r h1 h2 hr
  · exact length_recordUsage_of_found s userId taskId usage period r h1 h2 hr

/-- Witness for C8 at a concrete input: creating the first record of a
period, and the at-most-one invariant after the call. -/
theorem claim_C8_usage_upsert_witness :
    recordUsage [] "abcdefghij12345" "klmnopqrstu0123"
        { cpuSeconds := 1, memoryMbSeconds := 2, durationSeconds := 3 } "2024-01" =
      [] ++ [newUsageRecord [] "abcdefghij12345" "klmnopqrstu0123" "2024-01"
        { cpuSeconds := 1, memoryMbSeconds := 2, durationSeconds := 3 }] ∧
    countFor (recordUsage [] "abcdefghij12345" "klmnopqrstu0123"
        { cpuSeconds := 1, memoryMbSeconds := 2, durationSeconds := 3 } "2024-01")
      "abcdefghij12345" "2024-01" ≤ 1 :=
  ⟨(claim_C8_usage_upsert.1 [] "abcdefghij12345" "klmnopqrstu0123"
      { cpuSeconds := 1, memoryMbSeconds := 2, durationSeconds := 3 } "2024-01"
      (by decide) (by decide)).1 rfl,
   claim_C8_usage_upsert.2 [] "abcdefghij12345" "klmnopqrstu0123"
      { cpuSeconds := 1, memoryMbSeconds := 2, durationSeconds := 3 } "2024-01"
      "abcdefghij12345" "2024-01" (by decide)⟩

/-! ## Claim C9 — duplicate accounting is not deduplicated -/

/-- C9: `recordUsage` keys on (owner, period) only — there is no
deduplication by task id.  Invoking it twice with the same
(owner, task id, usage), as a queue retry after a crash following sandbox
completion would, adds the usage delta twice and moves the period's task
count two past its initial value rather than one. -/
theorem claim_C9_no_dedup_double_count
    (s : List UsageRecord) (userId taskId : String) (usage : ResourceUsage)
    (period : String)
    (h1 : isValidPocketBaseId userId = true) (h2 : isValidPocketBaseId taskId = true) :
    ∃ r2, findUsage (recordUsage (recordUsage s userId taskId usage period)
        userId taskId usage period) userId period = some r2 ∧
      r2.taskCount =
        (match findUsage s userId period with
         | some r => r.taskCount
         | none => 0) + 2 ∧
      r2.cpuSeconds =
        (match findUsage s userId period with
         | some r => r.cpuSeconds
         | none => 0) + usage.cpuSeconds + usage.cpuSeconds ∧
      r2.memoryMbSeconds =
        (match findUsage s userId period with
         | some r => r.memoryMbSeconds
         | none => 0) + usage.memoryMbSeconds + usage.memoryMbSeconds := by
  cases hr : findUsage s userId period with
  | some r =>
    have e1 := findUsage_recordUsage_of_found s userId taskId usage period r h1 h2 hr
    have e2 := findUsage_recordUsage_of_found
      (recordUsage s userId taskId usage period) userId taskId usage period _ h1 h2 e1
    exact ⟨_, e2, rfl, rfl, rfl⟩
  | none =>
    have e1 := recordUsage_of_absent s userId taskId usage period h1 h2 hr
    have h0 : List.filter (fun x => x.user = userId && x.period = period) s = [] := by
      unfold findUsage at hr
      rwa [List.head?_eq_none_iff] at hr
    have hfind1 : findUsage (recordUsage s userId taskId usage period) userId period =
        some (newUsageRecord s userId taskId period usage) := by
      rw [e1]
      unfold findUsage
      rw [List.filter_append, h0]
      simp [newUsageRecord]
    have e2 := findUsage_recordUsage_of_found
      (recordUsage s userId taskId usage period) userId taskId usage period _ h1 h2 hfind1
    refine ⟨_, e2, rfl, ?_, ?_⟩ <;> simp [newUsageRecord]

/-- Witness for C9 at a concrete input: two identical invocations on an
empty store leave the period's task count at 2 and twice the usage. -/
theorem claim_C9_no_dedup_double_count_witness :
    ∃ r2, findUsage (recordUsage (recordUsage [] "abcdefghij12345" "klmnopqrstu0123"
        { cpuSeconds := 1, memoryMbSeconds := 2, durationSeconds := 3 } "2024-01")
        "abcdefghij12345" "klmnopqrstu0123"
        { cpuSeconds := 1, memoryMbSeconds := 2, durationSeconds := 3 } "2024-01")
        "abcdefghij12345" "2024-01" = some r2 ∧
      r2.taskCount =
        (match findUsage [] "abcdefghij12345" "2024-01" with
         | some r => r.taskCount
         | none => 0) + 2 ∧
      r2.cpuSeconds =
        (match findUsage [] "abcdefghij12345" "2024-01" with
         | some r => r.cpuSeconds
         | none => 0) + 1 + 1 ∧
      r2.memoryMbSeconds =
        (match findUsage [] "abcdefghij12345" "2024-01" with
         | some r => r.memoryMbSeconds
         | none => 0) + 2 + 2 :=
  claim_C9_no_dedup_double_count [] "abcdefghij12345" "klmnopqrstu0123"
    { cpuSeconds := 1, memoryMbSeconds := 2, durationSeconds := 3 } "2024-01"
    (by decide) (by decide)

/-! ## Claim C10 — ids outside the PocketBase format skip accounting -/

/-- C10: when the owner id or the task id is not a 15-character
lowercase-alphanumeric PocketBase id, `recordUsage` returns with no store
write (and no error — the early return is silent), and every id of the shape
produced by `generateTaskId` (`task_<timestamp>_<random>`) fails the format
check, so such a task's resource usage is never added to any usage
record. -/
theorem claim_C10_invalid_id_skips_accounting :
    (∀ (s : List UsageRecord) (owner task : String) (usage : ResourceUsage)
       (period : String),
       (isValidPocketBaseId owner = false ∨ isValidPocketBaseId task = false) →
       recordUsage s owner task usage period = s) ∧
    (∀ (nowMs : Nat) (rand : String),
       isValidPocketBaseId (generateTaskId nowMs rand) = false) :=
  ⟨fun s owner task usage period h => recordUsage_of_invalid s owner task usage period h,
   fun nowMs rand => generateTaskId_invalid nowMs rand⟩

/-- Witness for C10 at a concrete input: recording usage for a
`generateTaskId`-shaped task id leaves a non-empty store untouched. -/
theorem claim_C10_invalid_id_skips_accounting_witness :
    recordUsage [newUsageRecord [] "abcdefghij12345" "klmnopqrstu0123" "2024-01"
        { cpuSeconds := 1, memoryMbSeconds := 2, durationSeconds := 3 }]
      "abcdefghij12345" (generateTaskId 1700000000000 "ab12cd9ef")
      { cpuSeconds := 4, memoryMbSeconds := 5, durationSeconds := 6 } "2024-01" =
      [newUsageRecord [] "abcdefghij12345" "klmnopqrstu0123" "2024-01"
        { cpuSeconds := 1, memoryMbSeconds := 2, durationSeconds := 3 }] ∧
    isValidPocketBaseId (generateTaskId 1700000000000 "ab12cd9ef") = false :=
  ⟨claim_C10_invalid_id_skips_accounting.1 _ _ _ _ _
      (Or.inr (claim_C10_invalid_id_skips_accounting.2 1700000000000 "ab12cd9ef")),
   claim_C10_invalid_id_skips_accounting.2 1700000000000 "ab12cd9ef"⟩

/-! ## Claim C1 — free-tier monthly quota at admission -/

/-- A free-tier owner id (15 characters, `[a-z0-9]`). -/
def quotaOwner : String := "user12345678901"

/-- A completed prior task of the owner in the current month. -/
def priorTask (i : Nat) : TaskRow :=
  { id := "prior" ++ toString i
    user := quotaOwner
    type := "test-worker"
    status := .completed
    input := Json.obj []
    output := none
    error := none
    workerId := none
    startedAt := some ()
    completedAt := some ()
    resourceUsage := none }

/-- A `tasks` collection in which the free-tier owner has already used their
whole monthly quota of 10 tasks. -/
def quotaTasks : List TaskRow := (List.range 10).map priorTask

/-- The admission request of claim C1, submitted while the owner is at
quota. -/
def quotaRequest : CreateTaskBody :=
  { type := "test-worker", input := some (Json.obj [("n", Json.num 1)]) }

/-- What `POST /api/tasks` does with that request. -/
def quotaAdmission : WebResponse × List TaskRow :=
  webCreateTask (some quotaOwner) quotaRequest quotaTasks "tasknew12345678"

/-- C1, evaluated at the failing input.  The free plan's monthly quota is 10
and the owner has 10 current-month tasks, so the intended policy helper
`canCreateTask` — which no admission path ever calls — rejects with the
monthly-limit reason.  The admission route itself, whose quota check is an
unimplemented `TODO`, answers `created` and writes an 11th task record
instead of rejecting: the code contradicts the claimed (and intended)
`QuotaExceeded` rejection with zero store writes. -/
theorem claim_C1_quota_not_enforced :
    (PLAN_LIMITS PlanType.free).tasksPerMonth = 10 ∧
    (quotaTasks.filter (fun r => r.user = quotaOwner)).length = 10 ∧
    canCreateTask PlanType.free 10 0 =
      { allowed := false
        reason := some "Monthly task limit reached. Upgrade to continue." } ∧
    quotaAdmission.1 = WebResponse.created "tasknew12345678" ∧
    quotaAdmission.2.length = quotaTasks.length + 1 := by
  refine ⟨rfl, by decide, by decide, by decide, by decide⟩

/-! ## Claim C3 — cancelling a still-queued task -/

/-- The id of the still-queued task of claim C3. -/
def queuedTaskId : String := "taskqueued12345"

/-- The still-queued task's record. -/
def queuedTaskRow : TaskRow :=
  { id := queuedTaskId
    user := quotaOwner
    type := "test-worker"
    status := .queued
    input := Json.obj []
    output := none
    error := none
    workerId := none
    startedAt := none
    completedAt := none
    resourceUsage := none }

/-- The still-queued task's job, as enqueued by the dispatch route. -/
def queuedJob : TaskJobData :=
  { taskId := queuedTaskId
    userId := quotaOwner
    type := "test-worker"
    input := Json.obj []
    workerImage := "saassy/test-worker:latest"
    limits := { cpuLimit := 1, memoryLimit := "512m", timeoutSeconds := 60 } }

/-- `DELETE /internal/tasks/:id` on the still-queued task: queue holds its
job, no container exists, the task record is `queued`. -/
def cancelDemo : CancelResponse × List TaskJobData × DockerState × List TaskRow :=
  cancelTask [queuedJob] { containers := [] } [queuedTaskRow] queuedTaskId

/-- C3, evaluated at the failing input.  Cancelling the still-queued task
removes its job from the queue, creates no container, and the route answers
success — but the handler performs no task-record write, so the task record
keeps status `queued` forever instead of reaching the terminal status
`canceled` the claim requires. -/
theorem claim_C3_cancel_leaves_task_queued :
    cancelDemo.1 = CancelResponse.ok "Task canceled" ∧
    cancelDemo.2.1 = [] ∧
    cancelDemo.2.2.1 = { containers := [] } ∧
    cancelDemo.2.2.2 = [queuedTaskRow] ∧
    (getTask cancelDemo.2.2.2 queuedTaskId).map (fun r => r.status) =
      some TaskStatus.queued ∧
    TaskStatus.queued ≠ TaskStatus.canceled := by
  refine ⟨by decide, rfl, by decide, rfl, rfl, by decide⟩

/-! ## Lemmas about the task store and the processor -/

theorem getTask_updateTask (rows : List TaskRow) (id : String)
    (patch : TaskRow → TaskRow) (hpatch : ∀ r, (patch r).id = r.id)
    (r : TaskRow) (hr : getTask rows id = some r) :
    getTask (updateTask rows id patch) id = some (patch r) := by
  have hid : r.id = id := by
    have hmem : r ∈ rows.filter (fun x => x.id = id) := by
      apply List.mem_of_mem_head?
      unfold getTask at hr
      rw [hr]
      rfl
    simpa using List.of_mem_filter hmem
  unfold getTask updateTask
  rw [List.filter_map, List.head?_map]
  have heq : ((fun x : TaskRow => decide (x.id = id)) ∘
      (fun x => if x.id = id then patch x else x)) =
      (fun x : TaskRow => decide (x.id = id)) := by
    funext x
    simp only [Function.comp_apply]
    by_cases hx : x.id = id
    · simp [hx, hpatch]
    · simp [hx]
  rw [heq]
  unfold getTask at hr
  rw [hr]
  simp [hid]

/-- The terminal row `processTask` writes when `runContainer` returns a
result: the `running` patch followed by the terminal patch. -/
def terminalRow (r0 : TaskRow) (result : ContainerResult) : TaskRow :=
  { r0 with
    status := if result.exitCode = 0 then TaskStatus.completed else TaskStatus.failed
    output := some (tryParseJson result.output)
    error := result.error
    workerId := some result.containerId
    startedAt := some ()
    completedAt := some ()
    resourceUsage := some result.resourceUsage }

theorem processTask_of_ok (st : SysState) (job : TaskJobData) (env : SandboxEnv)
    (period : String) (result : ContainerResult)
    (hres : runContainer (jobConfig job) env = .ok result)
    (r0 : TaskRow) (hr : getTask st.tasks job.taskId = some r0) :
    getTask (processTask st job env period).1.tasks job.taskId =
      some (terminalRow r0 result) ∧
    (processTask st job env period).2 = .ok result := by
  have hstep : processTask st job env period =
      ({ tasks := updateTask (updateTask st.tasks job.taskId
            (fun r => { r with status := .running, startedAt := some () })) job.taskId
            (fun r => { r with
              status := if result.exitCode = 0 then TaskStatus.completed else TaskStatus.failed
              output := some (tryParseJson result.output)
              error := result.error
              workerId := some result.containerId
              completedAt := some ()
              resourceUsage := some result.resourceUsage })
         usage := recordUsage st.usage job.userId job.taskId result.resourceUsage period },
       .ok result) := by
    unfold processTask
    rw [hres]
  rw [hstep]
  refine ⟨?_, rfl⟩
  have g1 := getTask_updateTask st.tasks job.taskId
    (fun r => { r with status := .running, startedAt := some () }) (fun r => rfl) r0 hr
  have g2 := getTask_updateTask _ job.taskId
    (fun r => { r with
      status := if result.exitCode = 0 then TaskStatus.completed else TaskStatus.failed
      output := some (tryParseJson result.output)
      error := result.error
      workerId := some result.containerId
      completedAt := some ()
      resourceUsage := some result.resourceUsage }) (fun r => rfl) _ g1
  exact g2

theorem processTask_of_error (st : SysState) (job : TaskJobData) (env : SandboxEnv)
    (period : String) (msg : String)
    (hres : runContainer (jobConfig job) env = .error msg)
    (r0 : TaskRow) (hr : getTask st.tasks job.taskId = some r0) :
    getTask (processTask st job env period).1.tasks job.taskId =
      some { r0 with status := .running, startedAt := some () } ∧
    (processTask st job env period).1.usage = st.usage ∧
    (processTask st job env period).2 = .error msg := by
  have hstep : processTask st job env period =
      ({ tasks := updateTask st.tasks job.taskId
            (fun r => { r with status := .running, startedAt := some () })
         usage := st.usage }, .error msg) := by
    unfold processTask
    rw [hres]
  rw [hstep]
  exact ⟨getTask_updateTask st.tasks job.taskId
    (fun r => { r with status := .running, startedAt := some () }) (fun r => rfl) r0 hr,
    rfl, rfl⟩

theorem runContainer_runs_of_within (cfg : ContainerConfig) (env : SandboxEnv)
    (code : Nat) (logs : String) (runMs : Nat)
    (hb : env.behavior = .runs code logs runMs)
    (h : runMs ≤ cfg.timeoutSeconds * 1000) :
    runContainer cfg env = .ok
      { containerId := env.containerId
        exitCode := (code : Int)
        output := logs
        error := if (code : Int) ≠ 0 then some (exitCodeMessage code) else none
        resourceUsage :=
          { cpuSeconds := (((env.setupMs + runMs : Nat) : Rat) / 1000) * cfg.cpuLimit
            memoryMbSeconds := (((env.setupMs + runMs : Nat) : Rat) / 1000) *
              (((parseMemoryLimit cfg.memoryLimit : Nat) : Rat) / 1024 / 1024)
            durationSeconds := ((env.setupMs + runMs : Nat) : Rat) / 1000 } } := by
  unfold runContainer
  rw [hb]
  simp only [Nat.min_eq_left h, if_neg (Nat.not_lt.2 h)]

theorem runContainer_runs_of_timeout (cfg : ContainerConfig) (env : SandboxEnv)
    (code : Nat) (logs : String) (runMs : Nat)
    (hb : env.behavior = .runs code logs runMs)
    (h : cfg.timeoutSeconds * 1000 < runMs) :
    runContainer cfg env = .ok
      { containerId := env.containerId
        exitCode := -1
        output := logs
        error := some (timeoutMessage cfg.timeoutSeconds)
        resourceUsage :=
          { cpuSeconds :=
              (((env.setupMs + cfg.timeoutSeconds * 1000 : Nat) : Rat) / 1000) * cfg.cpuLimit
            memoryMbSeconds :=
              (((env.setupMs + cfg.timeoutSeconds * 1000 : Nat) : Rat) / 1000) *
              (((parseMemoryLimit cfg.memoryLimit : Nat) : Rat) / 1024 / 1024)
            durationSeconds :=
              ((env.setupMs + cfg.timeoutSeconds * 1000 : Nat) : Rat) / 1000 } } := by
  unfold runContainer
  rw [hb]
  simp only [Nat.min_eq_right (Nat.le_of_lt h), if_pos h]

theorem runContainer_of_startFail (cfg : ContainerConfig) (env : SandboxEnv)
    (msg : String) (failMs : Nat) (hb : env.behavior = .startFail msg failMs) :
    runContainer cfg env = .ok
      { containerId := env.containerId
        exitCode := -1
        output := ""
        error := some msg
        resourceUsage :=
          { cpuSeconds := (((env.setupMs + failMs : Nat) : Rat) / 1000) * cfg.cpuLimit
            memoryMbSeconds := 0
            durationSeconds := ((env.setupMs + failMs : Nat) : Rat) / 1000 } } := by
  unfold runContainer
  rw [hb]

theorem runContainer_of_setupFail (cfg : ContainerConfig) (env : SandboxEnv)
    (msg : String) (hb : env.behavior = .setupFail msg) :
    runContainer cfg env = .error msg := by
  unfold runContainer
  rw [hb]

/-- The timeout sentinel message never coincides with a non-zero-exit
message: the former starts with a `T`, the latter with an `E`. -/
theorem timeoutMessage_ne_exitCodeMessage (t c : Nat) :
    timeoutMessage t ≠ exitCodeMessage c := by
  intro h
  have hdata := congrArg String.data h
  unfold timeoutMessage exitCodeMessage at hdata
  rw [String.data_append, String.data_append, String.data_append] at hdata
  have hhead := congrArg List.head? hdata
  simp at hhead

/-! ## Claim C2 — terminal status of a processed job -/

/-- `processTask` on a job whose image pull or container creation throws
(`docker.createContainer` and `pullImageIfNeeded` are awaited outside the
`try` block of `runContainer`). -/
def provisioningDemo : SysState × Except String ContainerResult :=
  processTask { tasks := [queuedTaskRow], usage := [] } queuedJob
    { containerId := ""
      setupMs := 0
      behavior := .setupFail "pull access denied for saassy/test-worker" }
    "2024-01"

/-- C2, counterexample.  A runtime failure to *create* the sandbox (image
pull or container creation throwing) does not yield terminal status
`failed`: the error escapes `runContainer` before the `try` block, so
`processTask` throws after having marked the task `running`, the terminal
update never runs, and the task record stays `running` with no error field —
contradicting the claim that all of create/start/observe failures yield
`failed` with a populated error. -/
theorem claim_C2_counterexample :
    (getTask provisioningDemo.1.tasks queuedTaskId).map (fun r => r.status) =
      some TaskStatus.running ∧
    (getTask provisioningDemo.1.tasks queuedTaskId).map (fun r => r.error) =
      some none ∧
    provisioningDemo.2 = Except.error "pull access denied for saassy/test-worker" ∧
    TaskStatus.running ≠ TaskStatus.failed ∧
    TaskStatus.running ≠ TaskStatus.completed := by
  refine ⟨rfl, rfl, rfl, by decide, by decide⟩

/-- C2, amended: for every processed job holding a task record, (i) when the
sandbox exits within its timeout the task reaches `completed` exactly when
the exit code is 0, a non-zero exit reaching `failed` with the exit-code
error message; (ii) a timeout reaches `failed` with the sentinel message;
(iii) a runtime failure at or after container start reaches `failed` with
the thrown message; (iv) a failure to pull the image or create the container
instead propagates as a job-level error, leaving the task `running` with its
error field untouched; and (v) the timeout sentinel never coincides with a
non-zero-exit message. -/
theorem claim_C2_terminal_status (st : SysState) (job : TaskJobData)
    (env : SandboxEnv) (period : String) (r0 : TaskRow)
    (hr : getTask st.tasks job.taskId = some r0) :
    (∀ code logs runMs, env.behavior = .runs code logs runMs →
      runMs ≤ job.limits.timeoutSeconds * 1000 →
      ∃ r1, getTask (processTask st job env period).1.tasks job.taskId = some r1 ∧
        (r1.status = TaskStatus.completed ↔ code = 0) ∧
        (code = 0 → r1.error = none) ∧
        (code ≠ 0 → r1.status = TaskStatus.failed ∧
          r1.error = some (exitCodeMessage code))) ∧
    (∀ code logs runMs, env.behavior = .runs code logs runMs →
      job.limits.timeoutSeconds * 1000 < runMs →
      ∃ r1, getTask (processTask st job env period).1.tasks job.taskId = some r1 ∧
        r1.status = TaskStatus.failed ∧
        r1.error = some (timeoutMessage job.limits.timeoutSeconds)) ∧
    (∀ msg failMs, env.behavior = .startFail msg failMs →
      ∃ r1, getTask (processTask st job env period).1.tasks job.taskId = some r1 ∧
        r1.status = TaskStatus.failed ∧ r1.error = some msg) ∧
    (∀ msg, env.behavior = .setupFail msg →
      (processTask st job env period).2 = .error msg ∧
      ∃ r1, getTask (processTask st job env period).1.tasks job.taskId = some r1 ∧
        r1.status = TaskStatus.running ∧ r1.error = r0.error) ∧
    (∀ t c, timeoutMessage t ≠ exitCodeMessage c) := by
  refine ⟨?_, ?_, ?_, ?_, timeoutMessage_ne_exitCodeMessage⟩
  · intro code logs runMs hb hle
    have hrc := runContainer_runs_of_within (jobConfig job) env code logs runMs hb hle
    obtain ⟨g, -⟩ := processTask_of_ok st job env period _ hrc r0 hr
    refine ⟨_, g, ?_, ?_, ?_⟩
    · simp only [terminalRow]
      by_cases hc : code = 0
      · subst hc
        simp
      · simp [hc, Int.natCast_eq_zero]
    · intro hc
      subst hc
      simp [terminalRow]
    · intro hc
      constructor
      · simp [terminalRow, Int.natCast_eq_zero, hc]
      · simp [terminalRow, Int.natCast_eq_zero, hc]
  · intro code logs runMs hb hgt
    have hrc := runContainer_runs_of_timeout (jobConfig job) env code logs runMs hb hgt
    obtain ⟨g, -⟩ := processTask_of_ok st job env period _ hrc r0 hr
    refine ⟨_, g, ?_, ?_⟩
    · simp [terminalRow]
    · simp [terminalRow]
      rfl
  · intro msg failMs hb
    have hrc := runContainer_of_startFail (jobConfig job) env msg failMs hb
    obtain ⟨g, -⟩ := processTask_of_ok st job env period _ hrc r0 hr
    refine ⟨_, g, ?_, ?_⟩
    · simp [terminalRow]
    · simp [terminalRow]
  · intro msg hb
    have hrc := runContainer_of_setupFail (jobConfig job) env msg hb
    obtain ⟨g, husage, herr⟩ := processTask_of_error st job env period msg hrc r0 hr
    exact ⟨herr, _, g, rfl, rfl⟩

/-- Witness for C2 at a concrete input: a sandbox that exits 0 within its
timeout drives the queued task to `completed` with no error. -/
theorem claim_C2_terminal_status_witness :
    ∃ r1, getTask (processTask { tasks := [queuedTaskRow], usage := [] } queuedJob
        { containerId := "c0", setupMs := 0, behavior := .runs 0 "\x7b\x7d" 500 }
        "2024-01").1.tasks queuedTaskId = some r1 ∧
      (r1.status = TaskStatus.completed ↔ (0 : Nat) = 0) ∧
      ((0 : Nat) = 0 → r1.error = none) ∧
      ((0 : Nat) ≠ 0 → r1.status = TaskStatus.failed ∧
        r1.error = some (exitCodeMessage 0)) :=
  (claim_C2_terminal_status { tasks := [queuedTaskRow], usage := [] } queuedJob
      { containerId := "c0", setupMs := 0, behavior := .runs 0 "\x7b\x7d" 500 }
      "2024-01" queuedTaskRow rfl).1 0 "\x7b\x7d" 500 rfl (by decide)

/-! ## Claim C4 — result parsing of the collected output -/

/-- The combined log text of a sandbox that printed a diagnostic line before
its final JSON result line. -/
def roundTripLogs : String :=
  "starting task\n\x7b\"success\":true,\"result\":\x7b\"sum\":15\x7d\x7d"

/-- The output document the claim expects. -/
def roundTripExpected : Json :=
  Json.obj [("success", Json.bool true), ("result", Json.obj [("sum", Json.num 15)])]

/-- The task id, record and job of the round-trip scenario. -/
def roundTripTaskId : String := "taskjsonrt12345"

def roundTripRow : TaskRow :=
  { id := roundTripTaskId
    user := quotaOwner
    type := "test-worker"
    status := .queued
    input := Json.obj []
    output := none
    error := none
    workerId := none
    startedAt := none
    completedAt := none
    resourceUsage := none }

def roundTripJob : TaskJobData :=
  { taskId := roundTripTaskId
    userId := quotaOwner
    type := "test-worker"
    input := Json.obj []
    workerImage := "saassy/test-worker:latest"
    limits := { cpuLimit := 1, memoryLimit := "512m", timeoutSeconds := 60 } }

/-- The processed state of the round-trip scenario: exit code 0 after 500 ms
with the two-line log text. -/
def roundTripDemo : SysState × Except String ContainerResult :=
  processTask { tasks := [roundTripRow], usage := [] } roundTripJob
    { containerId := "c1", setupMs := 0, behavior := .runs 0 roundTripLogs 500 }
    "2024-01"

/-- C4, evaluated at the failing input.  The final stdout line alone parses
to exactly the claimed document, but `tryParseJson` is applied to the
*entire* collected log text (stdout and stderr combined), so with a
diagnostic line before the JSON line the parse fails and the task's output
document is the `raw`-fallback object, not the claimed JSON value — even
though the task still completes.  This contradicts the claim (and the
repository's worker guide, which documents that the last line is parsed and
stderr is not). -/
theorem claim_C4_output_not_last_line :
    jsonParse "\x7b\"success\":true,\"result\":\x7b\"sum\":15\x7d\x7d" =
      some roundTripExpected ∧
    tryParseJson roundTripLogs = Json.obj [("raw", Json.str roundTripLogs)] ∧
    Json.obj [("raw", Json.str roundTripLogs)] ≠ roundTripExpected ∧
    (getTask roundTripDemo.1.tasks roundTripTaskId).map (fun r => r.status) =
      some TaskStatus.completed ∧
    (getTask roundTripDemo.1.tasks roundTripTaskId).map (fun r => r.output) =
      some (some (Json.obj [("raw", Json.str roundTripLogs)])) := by
  refine ⟨rfl, rfl, ?_, rfl, rfl⟩
  intro h
  have h2 : (1 : Nat) = 2 :=
    congrArg (fun j => match j with | Json.obj fs => fs.length | _ => 0) h
  exact absurd h2 (by decide)

/-! ## Claim C7 — timeout caps the billed duration -/

/-- C7: when the sandbox runs past the configured timeout, the task fails
with the timeout sentinel and the recorded duration is the timeout value
plus only the fixed setup overhead (pull/create/start), `setupMs / 1000` —
and is the same for every overrunning actual run time, so the billed
duration is capped at the timeout rather than following the sandbox's
unbounded elapsed time. -/
theorem claim_C7_timeout_caps_billed_duration (st : SysState) (job : TaskJobData)
    (env : SandboxEnv) (period : String) (r0 : TaskRow)
    (code : Nat) (logs : String) (runMs : Nat)
    (hr : getTask st.tasks job.taskId = some r0)
    (hb : env.behavior = .runs code logs runMs)
    (hpast : job.limits.timeoutSeconds * 1000 < runMs) :
    ∃ r1 u, getTask (processTask st job env period).1.tasks job.taskId = some r1 ∧
      r1.status = TaskStatus.failed ∧
      r1.error = some (timeoutMessage job.limits.timeoutSeconds) ∧
      r1.resourceUsage = some u ∧
      u.durationSeconds =
        (job.limits.timeoutSeconds : Rat) + (env.setupMs : Rat) / 1000 ∧
      (∀ runMs2, job.limits.timeoutSeconds * 1000 < runMs2 →
        ∃ r2 u2, getTask (processTask st job
            { env with behavior := .runs code logs runMs2 } period).1.tasks job.taskId =
          some r2 ∧ r2.resourceUsage = some u2 ∧
          u2.durationSeconds = u.durationSeconds) := by
  have hdur : ((env.setupMs + job.limits.timeoutSeconds * 1000 : Nat) : Rat) / 1000 =
      (job.limits.timeoutSeconds : Rat) + (env.setupMs : Rat) / 1000 := by
    push_cast
    ring
  have hrc := runContainer_runs_of_timeout (jobConfig job) env code logs runMs hb hpast
  obtain ⟨g, -⟩ := processTask_of_ok st job env period _ hrc r0 hr
  refine ⟨_, _, g, ?_, ?_, rfl, ?_, ?_⟩
  · simp [terminalRow]
  · simp [terminalRow]
    rfl
  · exact hdur
  · intro runMs2 h2
    have hrc2 := runContainer_runs_of_timeout (jobConfig job)
      { env with behavior := .runs code logs runMs2 } code logs runMs2 rfl h2
    obtain ⟨g2, -⟩ := processTask_of_ok st job
      { env with behavior := .runs code logs runMs2 } period _ hrc2 r0 hr
    exact ⟨_, _, g2, rfl, rfl⟩

/-- A job configured with a 2-second timeout for the queued task. -/
def shortTimeoutJob : TaskJobData :=
  { taskId := queuedTaskId
    userId := quotaOwner
    type := "test-worker"
    input := Json.obj []
    workerImage := "saassy/test-worker:latest"
    limits := { cpuLimit := 1, memoryLimit := "512m", timeoutSeconds := 2 } }

/-- Witness for C7 at a concrete input: timeout 2 s, sandbox sleeping 10 s,
no setup overhead — the billed duration is 2 s, not 10 s. -/
theorem claim_C7_timeout_caps_billed_duration_witness :
    ∃ r1 u, getTask (processTask { tasks := [queuedTaskRow], usage := [] }
        shortTimeoutJob
        { containerId := "c0", setupMs := 0, behavior := .runs 0 "" 10000 }
        "2024-01").1.tasks queuedTaskId = some r1 ∧
      r1.status = TaskStatus.failed ∧
      r1.error = some (timeoutMessage 2) ∧
      r1.resourceUsage = some u ∧
      u.durationSeconds = (2 : Rat) + (0 : Rat) / 1000 ∧
      (∀ runMs2, 2 * 1000 < runMs2 →
        ∃ r2 u2, getTask (processTask { tasks := [queuedTaskRow], usage := [] }
            shortTimeoutJob
            { containerId := "c0", setupMs := 0, behavior := .runs 0 "" runMs2 }
            "2024-01").1.tasks queuedTaskId = some r2 ∧ r2.resourceUsage = some u2 ∧
          u2.durationSeconds = u.durationSeconds) :=
  claim_C7_timeout_caps_billed_duration { tasks := [queuedTaskRow], usage := [] }
    shortTimeoutJob { containerId := "c0", setupMs := 0, behavior := .runs 0 "" 10000 }
    "2024-01" queuedTaskRow 0 "" 10000 rfl rfl (by decide)

/-! ## Lemmas about the dispatch route -/

/-- The job the hardened dispatch route enqueues for an admitted request:
the request's identifiers and input, the whitelisted worker image, and
limits derived from the plan resolved server-side at admission time. -/
def admittedJob (subs : List SubscriptionRow) (req : StartRequest) : TaskJobData :=
  { taskId := req.taskId
    userId := req.userId
    type := req.type
    input := req.input.getD Json.null
    workerImage := (getWorkerImage req.type).getD ""
    limits :=
      { cpuLimit := 1
        memoryLimit := "512m"
        timeoutSeconds := (PLAN_LIMITS (resolvePlan subs req.userId)).maxDurationSeconds } }

theorem startTask_queue_shape (subs : List SubscriptionRow) (q : List TaskJobData)
    (req : StartRequest) :
    (startTask subs q req).2 = q ∨
    (startTask subs q req).2 = q ++ [admittedJob subs req] := by
  unfold startTask
  split
  · exact Or.inl rfl
  split
  · exact Or.inl rfl
  split
  · exact Or.inl rfl
  split
  · exact Or.inl rfl
  next img himg =>
    unfold enqueue
    dsimp only
    split
    · exact Or.inl rfl
    · right
      unfold admittedJob
      rw [himg]
      rfl

/-! ## Claim C5 — limits are derived from the admission-time plan -/

/-- C5: any job the dispatch route adds to the queue carries exactly
`cpuLimit 1`, `memoryLimit "512m"` and, as its timeout, the
`maxDurationSeconds` of the plan resolved from the subscription store as of
admission (in the source's limit derivation the cpu share and the memory
ceiling are the same for every plan; the timeout is the plan-dependent
limit).  Moreover, admitting against one store and then processing after the
store has changed arbitrarily gives the same outcome whatever the later
store is: the processor reads the limits from the job, never from the
subscription store. -/
theorem claim_C5_admission_time_limits :
    (∀ (subs : List SubscriptionRow) (q : List TaskJobData) (req : StartRequest),
       ∀ j ∈ (startTask subs q req).2, j ∉ q →
       j.limits =
         { cpuLimit := 1
           memoryLimit := "512m"
           timeoutSeconds :=
             (PLAN_LIMITS (resolvePlan subs req.userId)).maxDurationSeconds }) ∧
    (∀ (subsAdmission subsLater1 subsLater2 : List SubscriptionRow)
       (req : StartRequest) (st : SysState) (env : SandboxEnv) (period : String),
       admitThenProcess subsAdmission subsLater1 req st env period =
       admitThenProcess subsAdmission subsLater2 req st env period) := by
  constructor
  · intro subs q req j hmem hnot
    rcases startTask_queue_shape subs q req with hq | hq
    · rw [hq] at hmem
      exact absurd hmem hnot
    · rw [hq] at hmem
      rcases List.mem_append.1 hmem with h | h
      · exact absurd h hnot
      · rw [List.mem_singleton.1 h]
        rfl
  · intro subsAdmission subsLater1 subsLater2 req st env period
    rfl

/-- The subscription store of the C5/C6 witnesses: the owner holds one
active `pro` subscription. -/
def subsDemo : List SubscriptionRow :=
  [{ user := quotaOwner, plan := "pro", status := "active", created := 100 }]

/-- A well-formed dispatch request, whose body also carries a (never
trusted) client plan claim. -/
def startReqDemo : StartRequest :=
  { taskId := queuedTaskId
    userId := quotaOwner
    type := "test-worker"
    input := some (Json.obj [("n", Json.num 1)])
    plan := some "enterprise" }

/-- Witness for C5 at a concrete input: the admitted job of a `pro` owner
carries timeout 3600 (the pro plan's `maxDurationSeconds`), not the
client-claimed enterprise limit. -/
theorem claim_C5_admission_time_limits_witness :
    admittedJob subsDemo startReqDemo ∈ (startTask subsDemo [] startReqDemo).2 ∧
    (admittedJob subsDemo startReqDemo).limits =
      { cpuLimit := 1, memoryLimit := "512m", timeoutSeconds := 3600 } := by
  have hmem : admittedJob subsDemo startReqDemo ∈ (startTask subsDemo [] startReqDemo).2 := by
    rw [show (startTask subsDemo [] startReqDemo).2 =
      [admittedJob subsDemo startReqDemo] from rfl]
    exact List.mem_singleton.2 rfl
  have hlim := claim_C5_admission_time_limits.1 subsDemo [] startReqDemo
    (admittedJob subsDemo startReqDemo) hmem (by simp)
  exact ⟨hmem, by rw [hlim]; decide⟩

/-! ## Claim C6 — the plan is resolved server-side, never from the body -/

/-- C6: the hardened dispatch route ignores any client-supplied plan field —
two requests differing only in that field produce identical responses and
identical queues; an owner with no active subscription resolves to the free
tier; and every newly enqueued job's limits are computed from the plan
resolved out of the subscription store for the request's owner. -/
theorem claim_C6_server_side_plan :
    (∀ (subs : List SubscriptionRow) (q : List TaskJobData) (req : StartRequest)
       (p1 p2 : Option String),
       startTask subs q { req with plan := p1 } =
       startTask subs q { req with plan := p2 }) ∧
    (∀ (subs : List SubscriptionRow) (uid : String),
       (∀ s ∈ subs, ¬(s.user = uid ∧ s.status = "active")) →
       resolvePlan subs uid = PlanType.free) ∧
    (∀ (subs : List SubscriptionRow) (q : List TaskJobData) (req : StartRequest),
       ∀ j ∈ (startTask subs q req).2, j ∉ q →
       j.limits.timeoutSeconds =
         (PLAN_LIMITS (resolvePlan subs req.userId)).maxDurationSeconds) := by
  refine ⟨?_, ?_, ?_⟩
  · intro subs q req p1 p2
    cases req
    rfl
  · intro subs uid h
    unfold resolvePlan latestActiveSub
    have hfilter : subs.filter (fun s => s.user = uid && s.status = "active") = [] := by
      rw [List.filter_eq_nil_iff]
      intro s hs
      simp only [Bool.and_eq_true, decide_eq_true_eq, not_and]
      intro hu hst
      exact h s hs ⟨hu, hst⟩
    rw [hfilter]
    rfl
  · intro subs q req j hmem hnot
    rcases startTask_queue_shape subs q req with hq | hq
    · rw [hq] at hmem
      exact absurd hmem hnot
    · rw [hq] at hmem
      rcases List.mem_append.1 hmem with h | h
      · exact absurd h hnot
      · rw [List.mem_singleton.1 h]
        rfl

/-- Witness for C6 at a concrete input: a client-claimed `enterprise` plan
and an absent plan field dispatch identically, and an empty subscription
store resolves to the free tier. -/
theorem claim_C6_server_side_plan_witness :
    startTask subsDemo [] { startReqDemo with plan := some "enterprise" } =
      startTask subsDemo [] { startReqDemo with plan := none } ∧
    resolvePlan [] quotaOwner = PlanType.free :=
  ⟨claim_C6_server_side_plan.1 subsDemo [] startReqDemo (some "enterprise") none,
   claim_C6_server_side_plan.2.1 [] quotaOwner (by simp)⟩

end Saassy
